import Mathlib

/-!
Verification development for the CANsniffer repository.

The Python sources (`decoder.py`, `V3.py`) are shallowly embedded below:
byte lists become `List Nat`, Python numbers become exact rationals
(`Rat`; CPython's binary floating point is modelled by exact arithmetic,
and every concrete value checked here is exactly representable), Python
dicts in insertion order become association lists, and a raised exception
becomes an explicit `none` / `Except.error` value.
-/

/-- A decoded signal value: Python ints and floats are modelled as exact
rationals, Python booleans as `Bool`, Python strings as `String`. -/
inductive PyValue where
  | num (q : Rat)
  | bool (b : Bool)
  | str (s : String)
deriving DecidableEq, Repr

/-- A Python dict of signal name to value, in insertion order. -/
abbrev Sig := List (String × PyValue)

/-- `parse_le_int16` of decoder.py: little-endian 16-bit signed read at
`offset`, returning 0 when fewer than `offset + 2` bytes are present. -/
def parse_le_int16 (data : List Nat) (offset : Nat) : Int :=
  if data.length < offset + 2 then 0
  else
    let raw : Nat := (data.getD offset 0) ||| ((data.getD (offset + 1) 0) <<< 8)
    if raw > 32767 then (raw : Int) - 65536 else (raw : Int)

/-- `parse_be_int16` of decoder.py: big-endian 16-bit signed read at
`offset`, returning 0 when fewer than `offset + 2` bytes are present. -/
def parse_be_int16 (data : List Nat) (offset : Nat) : Int :=
  if data.length < offset + 2 then 0
  else
    let raw : Nat := ((data.getD offset 0) <<< 8) ||| (data.getD (offset + 1) 0)
    if raw > 32767 then (raw : Int) - 65536 else (raw : Int)

/-- `parse_ivt_int40` of decoder.py: 40-bit big-endian signed value held in
payload bytes 1 through 5 (byte 0 skipped), returning 0 when fewer than
6 bytes are present. -/
def parse_ivt_int40 (data : List Nat) : Int :=
  if data.length < 6 then 0
  else
    let raw : Nat := ((data.getD 1 0) <<< 32) ||| ((data.getD 2 0) <<< 24) |||
      ((data.getD 3 0) <<< 16) ||| ((data.getD 4 0) <<< 8) ||| (data.getD 5 0)
    if raw &&& 0x8000000000 ≠ 0 then (raw : Int) - 0x10000000000 else (raw : Int)

/-- Round a rational to the nearest integer, ties to even (the rounding
CPython's fixed-point formatting applies). -/
def roundHalfEven (q : Rat) : Int :=
  let f := q.floor
  let r := q - (f : Rat)
  if 1 < 2 * r then f + 1
  else if 2 * r < 1 then f
  else if f % 2 = 0 then f else f + 1

/-- Left-pad a string with zeros to width `w`. -/
def padZeros (s : String) (w : Nat) : String :=
  if s.length < w then String.mk (List.replicate (w - s.length) '0') ++ s else s

/-- Decimal rendering of an integer, as Python prints one. -/
def intRepr (i : Int) : String :=
  if i < 0 then "-" ++ Nat.repr i.natAbs else Nat.repr i.natAbs

/-- Python's fixed-point format specifier (`f"{x:.2f}"` etc.), modelled
over exact rationals: round half to even at `prec` decimal digits. -/
def formatFixed (q : Rat) (prec : Nat) : String :=
  let n := roundHalfEven (q * ((10 : Rat) ^ prec))
  let sign := if n < 0 then "-" else ""
  let m := n.natAbs
  if prec = 0 then sign ++ Nat.repr m
  else sign ++ Nat.repr (m / 10 ^ prec) ++ "." ++ padZeros (Nat.repr (m % 10 ^ prec)) prec

/-- Python's builtin `hex`: `0x` followed by lowercase hex digits. -/
def pyHex (n : Nat) : String := "0x" ++ (Nat.toDigits 16 n).asString

/-- `bytes(data).hex()`: lowercase two-digit hex dump; `none` models the
`ValueError` raised when an element is not a byte. -/
def bytesHex (data : List Nat) : Option String :=
  (data.mapM (fun b =>
    if b < 256 then some ((Nat.digitChar (b / 16)).toString ++ (Nat.digitChar (b % 16)).toString)
    else none)).map (fun l => l.foldl (· ++ ·) "")

/-- `decode_inverter_multiplexed` of decoder.py (id 0x181): byte 0 selects
the sub-message, bytes 1-2 hold a little-endian 16-bit value. -/
def decode_inverter_multiplexed (data : List Nat) : Option Sig :=
  if data.length < 3 then some [("Error", .str "Len<3")]
  else
    let mux_id := data.getD 0 0
    let raw_val := parse_le_int16 data 1
    if mux_id = 0x30 then some [("RPM", .num ((raw_val : Rat) * 1))]
    else if mux_id = 0xEB then some [("DC Bus", .num ((raw_val : Rat) * (1 / 10)))]
    else if mux_id = 0x20 then some [("Inv Current", .num ((raw_val : Rat) * (1 / 10)))]
    else if mux_id = 0x49 then some [("Motor Temp", .num ((raw_val : Rat) * 1))]
    else if mux_id = 0x4A then some [("IGBT Temp", .num ((raw_val : Rat) * 1))]
    else some [("Mux " ++ pyHex mux_id, .num (raw_val : Rat))]

/-- `decode_inverter_igbt_temp` of decoder.py (id 0x385). -/
def decode_inverter_igbt_temp (data : List Nat) : Option Sig :=
  some [("IGBT Temp (L)", .num ((parse_le_int16 data 1 : Rat) * 1))]

/-- `decode_torque_command` of decoder.py (id 0x201). -/
def decode_torque_command (data : List Nat) : Option Sig :=
  some [("Torque Cmd", .num (parse_le_int16 data 1 : Rat))]

/-- `decode_ui_voltages` of decoder.py (id 0x700): three big-endian 16-bit
fields at offsets 2, 4, 6, each scaled by 0.01. -/
def decode_ui_voltages (data : List Nat) : Option Sig :=
  some [("UI V1", .num ((parse_be_int16 data 2 : Rat) * (1 / 100))),
        ("UI V2", .num ((parse_be_int16 data 4 : Rat) * (1 / 100))),
        ("UI V3", .num ((parse_be_int16 data 6 : Rat) * (1 / 100)))]

/-- `decode_ui_temperatures` of decoder.py (id 0x701). -/
def decode_ui_temperatures (data : List Nat) : Option Sig :=
  if data.length < 7 then some [("Error", .str "Short")]
  else some [("UI T1", .num (data.getD 2 0 : Rat)),
             ("UI T2", .num (data.getD 3 0 : Rat)),
             ("UI T3", .num (data.getD 4 0 : Rat))]

/-- `decode_ivt_current` of decoder.py (id 0x521): 0.001 scale, two-decimal
fixed text with unit suffix " A". -/
def decode_ivt_current (d : List Nat) : Option Sig :=
  some [("Current", .str (formatFixed ((parse_ivt_int40 d : Rat) * (1 / 1000)) 2 ++ " A"))]

/-- `decode_ivt_voltage_vehicle` of decoder.py (id 0x522). -/
def decode_ivt_voltage_vehicle (d : List Nat) : Option Sig :=
  some [("Volts Veh", .str (formatFixed ((parse_ivt_int40 d : Rat) * (1 / 1000)) 2 ++ " V"))]

/-- `decode_ivt_voltage_pack` of decoder.py (id 0x523). -/
def decode_ivt_voltage_pack (d : List Nat) : Option Sig :=
  some [("Volts Pack", .str (formatFixed ((parse_ivt_int40 d : Rat) * (1 / 1000)) 2 ++ " V"))]

/-- `decode_ivt_wattage` of decoder.py (id 0x526). -/
def decode_ivt_wattage (d : List Nat) : Option Sig :=
  some [("Power", .str (formatFixed ((parse_ivt_int40 d : Rat) * 1) 1 ++ " W"))]

/-- `decode_ivt_current_counter` of decoder.py (id 0x527). -/
def decode_ivt_current_counter (d : List Nat) : Option Sig :=
  some [("Ah", .num ((parse_ivt_int40 d : Rat) * 1))]

/-- `decode_ivt_wattage_counter` of decoder.py (id 0x528). -/
def decode_ivt_wattage_counter (d : List Nat) : Option Sig :=
  some [("Wh", .num ((parse_ivt_int40 d : Rat) * 1))]

/-- `decode_acu_info_1` of decoder.py (id 0x105): hex-text dump. -/
def decode_acu_info_1 (data : List Nat) : Option Sig :=
  (bytesHex data).map (fun s => [("ACU Info 1", .str s)])

/-- `decode_acu_info_2` of decoder.py (id 0x106): hex-text dump. -/
def decode_acu_info_2 (data : List Nat) : Option Sig :=
  (bytesHex data).map (fun s => [("ACU Info 2", .str s)])

/-- `decode_acu_precharge` of decoder.py (id 0x100): reads `data[0]` with
no length validation; `none` models the `IndexError` on an empty list. -/
def decode_acu_precharge (data : List Nat) : Option Sig :=
  (data.get? 0).map (fun b => [("Precharge", PyValue.num (b : Rat))])

/-- `decode_vcu_connected` of decoder.py (id 0x175): `bool(data[0])`,
unguarded index like `decode_acu_precharge`. -/
def decode_vcu_connected (data : List Nat) : Option Sig :=
  (data.get? 0).map (fun b => [("VCU", PyValue.bool (b != 0))])

/-- `decode_vcu_reply` of decoder.py (id 0x176). -/
def decode_vcu_reply (data : List Nat) : Option Sig :=
  (data.get? 0).map (fun b => [("VCU Reply", PyValue.bool (b != 0))])

/-- `CAN_ID_NAMES` of decoder.py: display names, in source order. -/
def CAN_ID_NAMES : List (Nat × String) :=
  [(0x181, "Inverter Status (Mux)"),
   (0x385, "Inverter IGBT Temp"),
   (0x201, "Torque Command"),
   (0x700, "UI Voltages"),
   (0x701, "UI Temps"),
   (0x521, "IVT Current"),
   (0x522, "IVT Voltage Veh"),
   (0x523, "IVT Voltage Pack"),
   (0x100, "ACU Control")]

/-- `DECODER_MAP` of decoder.py: id to decode routine, in source order. -/
def DECODER_MAP : List (Nat × (List Nat → Option Sig)) :=
  [(0x181, decode_inverter_multiplexed),
   (0x385, decode_inverter_igbt_temp),
   (0x201, decode_torque_command),
   (0x700, decode_ui_voltages),
   (0x701, decode_ui_temperatures),
   (0x105, decode_acu_info_1),
   (0x106, decode_acu_info_2),
   (0x100, decode_acu_precharge),
   (0x521, decode_ivt_current),
   (0x522, decode_ivt_voltage_vehicle),
   (0x523, decode_ivt_voltage_pack),
   (0x526, decode_ivt_wattage),
   (0x527, decode_ivt_current_counter),
   (0x528, decode_ivt_wattage_counter),
   (0x175, decode_vcu_connected),
   (0x176, decode_vcu_reply)]

/-- Python `dict.get(k)` on an association list with `Nat` keys. -/
def lookupD {α : Type} (m : List (Nat × α)) (k : Nat) : Option α :=
  (m.find? (fun e => e.1 == k)).map (·.2)

/-- Strip a leading `0x` or `0X`, as `int(s, 16)` accepts. -/
def stripHexPrefix : List Char → List Char
  | '0' :: 'x' :: rest => rest
  | '0' :: 'X' :: rest => rest
  | l => l

/-- Numeric value of one hex digit, either case. -/
def hexDigitVal (c : Char) : Option Nat :=
  if '0' ≤ c ∧ c ≤ '9' then some (c.toNat - '0'.toNat)
  else if 'a' ≤ c ∧ c ≤ 'f' then some (c.toNat - 'a'.toNat + 10)
  else if 'A' ≤ c ∧ c ≤ 'F' then some (c.toNat - 'A'.toNat + 10)
  else none

/-- Python `int(s, 16)` on the token shapes this pipeline produces: an
optional `0x`/`0X` prefix followed by hex digits.  (Signs, underscores and
surrounding whitespace, which CPython would also accept, never occur in
this pipeline and are modelled as parse failures.) -/
def pyIntHex (s : String) : Option Nat :=
  let body := stripHexPrefix s.toList
  if body.isEmpty then none
  else body.foldl (fun acc c =>
    match acc, hexDigitVal c with
    | some a, some d => some (16 * a + d)
    | _, _ => none) (some 0)

/-- Result of `DataDecoder.decode`: a signal mapping, the `"No Decoder"`
sentinel, or the structured `"Err: ..."` value built by its `except` arm. -/
inductive DecodeResult where
  | map (m : Sig)
  | noDecoder
  | err (s : String)
deriving DecidableEq, Repr

/-- The `try` body of `DataDecoder.decode`: id parse, per-token hex parse,
registry lookup, then the matched routine.  Faults are explicit
`Except.error` values (Python exception text is abstracted to a short
message). -/
def DataDecoder.decodeInner (can_id_str : String) (data_bytes_list : List String) :
    Except String DecodeResult :=
  match pyIntHex can_id_str with
  | none => .error ("invalid literal for int() with base 16: " ++ can_id_str)
  | some can_id =>
    match data_bytes_list.mapM pyIntHex with
    | none => .error "invalid literal for int() with base 16"
    | some data_ints =>
      match lookupD DECODER_MAP can_id with
      | some f =>
        match f data_ints with
        | some m => .ok (.map m)
        | none => .error "list index out of range"
      | none => .ok .noDecoder

/-- `DataDecoder.decode` of decoder.py: the `try` body with every internal
fault converted by the `except` arm into an `"Err: ..."` value. -/
def DataDecoder.decode (can_id_str : String) (data_bytes_list : List String) : DecodeResult :=
  match DataDecoder.decodeInner can_id_str data_bytes_list with
  | .ok r => r
  | .error e => .err ("Err: " ++ e)

/-- `DataDecoder.get_name` of decoder.py. -/
def DataDecoder.get_name (can_id_str : String) : String :=
  match pyIntHex can_id_str with
  | some cid => (lookupD CAN_ID_NAMES cid).getD "Unknown ID"
  | none => "Unknown"

/-- Python `str.replace`, left to right and non-overlapping, on character
lists.  Fuel-indexed; `pyReplace` supplies fuel covering the whole input. -/
def replaceAux (pat rep : List Char) : Nat → List Char → List Char
  | 0, l => l
  | _ + 1, [] => []
  | fuel + 1, c :: cs =>
    if pat ≠ [] ∧ (c :: cs).take pat.length = pat then
      rep ++ replaceAux pat rep fuel ((c :: cs).drop pat.length)
    else c :: replaceAux pat rep fuel cs

/-- Python `str.replace` on strings. -/
def pyReplace (s pat rep : String) : String :=
  String.mk (replaceAux pat.toList rep.toList s.toList.length s.toList)

/-- Tokenizer core of Python `str.split()`: split on whitespace runs,
producing no empty tokens (`acc` carries the current token reversed). -/
def splitWsAux : List Char → List Char → List (List Char)
  | [], acc => if acc.isEmpty then [] else [acc.reverse]
  | c :: cs, acc =>
    if c.isWhitespace then
      if acc.isEmpty then splitWsAux cs [] else acc.reverse :: splitWsAux cs []
    else splitWsAux cs (c :: acc)

/-- Python `str.split()` with no argument. -/
def pySplit (s : String) : List String := (splitWsAux s.toList []).map String.mk

/-- The normalization and tokenization step of `CANsnifferUI.parse_frame`:
`line.replace(",", " ").replace("ID:", "").replace("DATA:", "").split()`. -/
def pyTokens (line : String) : List String :=
  pySplit (pyReplace (pyReplace (pyReplace line "," " ") "ID:" "") "DATA:" "")

/-- Does the token start with the exact characters `0x`, as Python's
`startswith("0x")` checks? -/
def startsWith0x (s : String) : Bool :=
  match s.toList with
  | '0' :: 'x' :: _ => true
  | _ => false

/-- Python `str()` of a decoded value, used when joining the value column.
CPython's shortest-roundtrip float repr is not reproduced (a rational is
printed exactly); no verified claim depends on this rendering. -/
def pyStrOfValue (v : PyValue) : String :=
  match v with
  | .num q => if q.den = 1 then intRepr q.num else intRepr q.num ++ "/" ++ Nat.repr q.den
  | .bool b => if b then "True" else "False"
  | .str s => s

/-- The `val_str` expression of `parse_frame`: a joined `k: v` list for a
dict result, otherwise `str` of the sentinel or error value. -/
def pyStrOfResult (r : DecodeResult) : String :=
  match r with
  | .map m => ", ".intercalate (m.map (fun kv => kv.1 ++ ": " ++ pyStrOfValue kv.2))
  | .noDecoder => "No Decoder"
  | .err s => s

/-- One entry of `CANsnifferUI.stats`: the Python dict
`{'c': count, 't': last-timestamp}` (time modelled as an exact rational). -/
structure FrameStat where
  c : Nat
  t : Rat
deriving DecidableEq, Repr

/-- `stats.get(cid, ...)` on the statistics table. -/
def lookupS (m : List (String × FrameStat)) (k : String) : Option FrameStat :=
  (m.find? (fun e => e.1 == k)).map (·.2)

/-- `stats[cid] = v`: replace in place when present, else append. -/
def setS (m : List (String × FrameStat)) (k : String) (v : FrameStat) :
    List (String × FrameStat) :=
  if (m.find? (fun e => e.1 == k)).isSome then
    m.map (fun e => if e.1 == k then (k, v) else e)
  else m ++ [(k, v)]

/-- The statistics update of `parse_frame`: the stored successor entry and
the frequency label derived from the previous entry (or from a default
carrying `t = now`, which makes the first sighting's delta zero). -/
def statsStep (stats : List (String × FrameStat)) (cid : String) (now : Rat) :
    FrameStat × String :=
  let prev := (lookupS stats cid).getD ⟨0, now⟩
  let freq := if 0 < now - prev.t then formatFixed (1 / (now - prev.t)) 1 ++ " Hz" else "-"
  (⟨prev.c + 1, now⟩, freq)

/-- The dashboard row `parse_frame` builds for a processed line. -/
structure Row where
  cid : String
  name : String
  dlc : String
  dataText : String
  valStr : String
  freq : String
  count : Nat
  ts : String
deriving DecidableEq, Repr

/-- `CANsnifferUI.parse_frame` of V3.py on one line: returns the produced
row (`none` when the line is dropped for having fewer than two tokens) and
the updated statistics table.  Every step of the Python body is total in
this model, so its blanket `except: pass` arm is unreachable; the widget
insertions consuming the row are external collaborators. -/
def CANsnifferUI.parse_frame (stats : List (String × FrameStat)) (ts : String)
    (now : Rat) (line : String) : Option Row × List (String × FrameStat) :=
  let parts := pyTokens line
  if parts.length < 2 then (none, stats)
  else
    let p0 := parts.getD 0 ""
    let cid := if startsWith0x p0 then p0 else "0x" ++ p0
    let data := parts.drop 2
    let dec := DataDecoder.decode cid data
    let valStr := pyStrOfResult dec
    let step := statsStep stats cid now
    let stats2 := setS stats cid step.1
    let row : Row := ⟨cid, DataDecoder.get_name cid, parts.getD 1 "", " ".intercalate data,
      valStr, step.2, step.1.c, ts⟩
    (some row, stats2)

/-- Two little-endian bytes of the 16-bit two's-complement image of `v`:
the encoding direction of the spec's round-trip property. -/
def encode_le16 (v : Int) : List Nat :=
  let u := (v % 65536).toNat
  [u % 256, u / 256]

/-- Two big-endian bytes of the 16-bit two's-complement image of `v`. -/
def encode_be16 (v : Int) : List Nat :=
  let u := (v % 65536).toNat
  [u / 256, u % 256]

/-- Five big-endian bytes of the 40-bit two's-complement image of `v`
(the payload bytes 1 through 5 of an IVT frame). -/
def encode_be40 (v : Int) : List Nat :=
  let u := (v % 1099511627776).toNat
  [u / 4294967296, u / 16777216 % 256, u / 65536 % 256, u / 256 % 256, u % 256]

/-- Bitwise or of a shifted value with a small value is addition: the
heart of every byte-concatenation argument below. -/
theorem lor_add_of_lt (c b p i : Nat) (hp : p = 2 ^ i) (h : b < p) :
    (c * p) ||| b = c * p + b := by
  subst hp
  rw [Nat.mul_comm c (2 ^ i)]
  exact (Nat.mul_add_lt_is_or h c).symm

/-- A low byte or-ed with a value shifted past it is plain addition. -/
theorem lor_lowbyte (a b : Nat) (h : a < 256) : a ||| (b <<< 8) = b * 256 + a := by
  rw [Nat.or_comm, Nat.shiftLeft_eq, (by norm_num : (2 : Nat) ^ 8 = 256),
    lor_add_of_lt b a 256 8 (by norm_num) h]

/-- The five-byte big-endian or-chain of `parse_ivt_int40` is the base-256
expansion, provided the low four bytes are in range. -/
theorem lor40_eq (e1 e2 e3 e4 e5 : Nat) (h2 : e2 < 256) (h3 : e3 < 256)
    (h4 : e4 < 256) (h5 : e5 < 256) :
    ((e1 <<< 32) ||| (e2 <<< 24) ||| (e3 <<< 16) ||| (e4 <<< 8) ||| e5)
      = e1 * 4294967296 + e2 * 16777216 + e3 * 65536 + e4 * 256 + e5 := by
  rw [Nat.shiftLeft_eq, Nat.shiftLeft_eq, Nat.shiftLeft_eq, Nat.shiftLeft_eq,
    (by norm_num : (2 : Nat) ^ 32 = 4294967296), (by norm_num : (2 : Nat) ^ 24 = 16777216),
    (by norm_num : (2 : Nat) ^ 16 = 65536), (by norm_num : (2 : Nat) ^ 8 = 256)]
  have s1 : e1 * 4294967296 ||| e2 * 16777216 = e1 * 4294967296 + e2 * 16777216 :=
    lor_add_of_lt e1 (e2 * 16777216) 4294967296 32 (by norm_num) (by omega)
  have f1 : e1 * 4294967296 + e2 * 16777216 = (e1 * 256 + e2) * 16777216 := by ring
  have s2 : (e1 * 256 + e2) * 16777216 ||| e3 * 65536
      = (e1 * 256 + e2) * 16777216 + e3 * 65536 :=
    lor_add_of_lt (e1 * 256 + e2) (e3 * 65536) 16777216 24 (by norm_num) (by omega)
  have f2 : (e1 * 256 + e2) * 16777216 + e3 * 65536
      = (e1 * 65536 + e2 * 256 + e3) * 65536 := by ring
  have s3 : (e1 * 65536 + e2 * 256 + e3) * 65536 ||| e4 * 256
      = (e1 * 65536 + e2 * 256 + e3) * 65536 + e4 * 256 :=
    lor_add_of_lt (e1 * 65536 + e2 * 256 + e3) (e4 * 256) 65536 16 (by norm_num) (by omega)
  have f3 : (e1 * 65536 + e2 * 256 + e3) * 65536 + e4 * 256
      = (e1 * 16777216 + e2 * 65536 + e3 * 256 + e4) * 256 := by ring
  have s4 : (e1 * 16777216 + e2 * 65536 + e3 * 256 + e4) * 256 ||| e5
      = (e1 * 16777216 + e2 * 65536 + e3 * 256 + e4) * 256 + e5 :=
    lor_add_of_lt (e1 * 16777216 + e2 * 65536 + e3 * 256 + e4) e5 256 8 (by norm_num) h5
  rw [s1, f1, s2, f2, s3, f3, s4]

/-- `parse_ivt_int40` on an explicit six-or-more-byte list, with the length
guard discharged and the five reads resolved. -/
theorem parse_ivt_int40_cons (b0 e1 e2 e3 e4 e5 : Nat) (rest : List Nat) :
    parse_ivt_int40 (b0 :: e1 :: e2 :: e3 :: e4 :: e5 :: rest) =
      (if ((e1 <<< 32) ||| (e2 <<< 24) ||| (e3 <<< 16) ||| (e4 <<< 8) ||| e5)
          &&& 0x8000000000 ≠ 0
       then (((e1 <<< 32) ||| (e2 <<< 24) ||| (e3 <<< 16) ||| (e4 <<< 8) ||| e5 : Nat) : Int)
          - 0x10000000000
       else (((e1 <<< 32) ||| (e2 <<< 24) ||| (e3 <<< 16) ||| (e4 <<< 8) ||| e5 : Nat) : Int)) := by
  unfold parse_ivt_int40
  have hlen : ¬ (b0 :: e1 :: e2 :: e3 :: e4 :: e5 :: rest).length < 6 := by
    simp only [List.length_cons]
    omega
  rw [if_neg hlen]
  simp only [List.getD_cons_succ, List.getD_cons_zero]

/-- `parse_le_int16` on an exact two-byte list at offset 0. -/
theorem parse_le_int16_pair (a b : Nat) :
    parse_le_int16 [a, b] 0 =
      (if a ||| (b <<< 8) > 32767 then ((a ||| (b <<< 8) : Nat) : Int) - 65536
       else ((a ||| (b <<< 8) : Nat) : Int)) := rfl

/-- `parse_be_int16` on an exact two-byte list at offset 0. -/
theorem parse_be_int16_pair (a b : Nat) :
    parse_be_int16 [a, b] 0 =
      (if (a <<< 8) ||| b > 32767 then (((a <<< 8) ||| b : Nat) : Int) - 65536
       else (((a <<< 8) ||| b : Nat) : Int)) := rfl

/-- C3: for every signed value v in [-32768, 32767], encoding v as two
little-endian bytes and decoding with `parse_le_int16` at offset 0
reproduces v, and likewise for the big-endian pair with `parse_be_int16`. -/
theorem claim_c3 (v : Int) (hlo : -32768 ≤ v) (hhi : v ≤ 32767) :
    parse_le_int16 (encode_le16 v) 0 = v ∧ parse_be_int16 (encode_be16 v) 0 = v := by
  constructor
  · show parse_le_int16 [(v % 65536).toNat % 256, (v % 65536).toNat / 256] 0 = v
    set u := (v % 65536).toNat with hdef
    have hdm : u / 256 * 256 + u % 256 = u := by omega
    rw [parse_le_int16_pair, lor_lowbyte (u % 256) (u / 256) (by omega), hdm]
    split <;> omega
  · show parse_be_int16 [(v % 65536).toNat / 256, (v % 65536).toNat % 256] 0 = v
    set u := (v % 65536).toNat with hdef
    have hdm : u / 256 * 256 + u % 256 = u := by omega
    rw [parse_be_int16_pair, Nat.shiftLeft_eq, (by norm_num : (2 : Nat) ^ 8 = 256),
      lor_add_of_lt (u / 256) (u % 256) 256 8 (by norm_num) (by omega), hdm]
    split <;> omega

/-- Witness for C3 at the concrete value -12345. -/
theorem claim_c3_witness :
    (-32768 ≤ (-12345 : Int)) ∧ ((-12345 : Int) ≤ 32767) ∧
    parse_le_int16 (encode_le16 (-12345)) 0 = -12345 ∧
    parse_be_int16 (encode_be16 (-12345)) 0 = -12345 :=
  ⟨by norm_num, by norm_num,
   (claim_c3 (-12345) (by norm_num) (by norm_num)).1,
   (claim_c3 (-12345) (by norm_num) (by norm_num)).2⟩

/-- C7: for every signed value v in [-2^39, 2^39 - 1], writing v big-endian
into payload bytes 1 through 5 (byte 0 arbitrary, any trailing bytes) and
decoding with `parse_ivt_int40` returns v. -/
theorem claim_c7 (v : Int) (hlo : -549755813888 ≤ v) (hhi : v ≤ 549755813887)
    (b0 : Nat) (rest : List Nat) :
    parse_ivt_int40 ((b0 :: encode_be40 v) ++ rest) = v := by
  show parse_ivt_int40 (b0 :: (v % 1099511627776).toNat / 4294967296 ::
    (v % 1099511627776).toNat / 16777216 % 256 :: (v % 1099511627776).toNat / 65536 % 256 ::
    (v % 1099511627776).toNat / 256 % 256 :: (v % 1099511627776).toNat % 256 :: rest) = v
  set u := (v % 1099511627776).toNat with hdef
  rw [parse_ivt_int40_cons,
    lor40_eq (u / 4294967296) (u / 16777216 % 256) (u / 65536 % 256) (u / 256 % 256) (u % 256)
      (by omega) (by omega) (by omega) (by omega)]
  have hraw : u / 4294967296 * 4294967296 + u / 16777216 % 256 * 16777216 +
      u / 65536 % 256 * 65536 + u / 256 % 256 * 256 + u % 256 = u := by omega
  rw [hraw]
  cases hb : u.testBit 39 with
  | false =>
    have hz : u &&& 0x8000000000 = 0 := by
      rw [(by norm_num : (0x8000000000 : Nat) = 2 ^ 39), Nat.and_two_pow, hb]
      simp
    rw [if_neg (by simp [hz])]
    rw [Nat.testBit_to_div_mod] at hb
    simp only [decide_eq_false_iff_not] at hb
    omega
  | true =>
    have hz : u &&& 0x8000000000 = 2 ^ 39 := by
      rw [(by norm_num : (0x8000000000 : Nat) = 2 ^ 39), Nat.and_two_pow, hb]
      simp
    rw [if_pos (by rw [hz]; norm_num)]
    rw [Nat.testBit_to_div_mod] at hb
    simp only [decide_eq_true_eq] at hb
    omega

/-- Witness for C7 at the extreme value -2^39 with an arbitrary byte 0. -/
theorem claim_c7_witness :
    (-549755813888 ≤ (-549755813888 : Int)) ∧ ((-549755813888 : Int) ≤ 549755813887) ∧
    parse_ivt_int40 ((0xAA :: encode_be40 (-549755813888)) ++ []) = -549755813888 :=
  ⟨by norm_num, by norm_num, claim_c7 (-549755813888) (by norm_num) (by norm_num) 0xAA []⟩

set_option maxRecDepth 8000

/-- C4 counterexample: on the claim's byte list [_, 00, 00, 03, E8, 00] the
40-bit field spans payload bytes 1-5, so its value is 0x0003E800 = 256000,
and `decode_ivt_current` renders "256.00 A" — not the claimed "1.00" text
(byte 0 instantiated to 0). -/
theorem claim_c4_counterexample :
    decode_ivt_current [0, 0, 0, 3, 0xE8, 0] = some [("Current", PyValue.str "256.00 A")] ∧
    ¬ decode_ivt_current [0, 0, 0, 3, 0xE8, 0] = some [("Current", PyValue.str "1.00 A")] := by
  constructor
  · with_unfolding_all decide
  · with_unfolding_all decide

/-- C4 amended: a six-byte frame whose payload bytes are
[_, 00, 00, 00, 03, E8] (40-bit value 1000) decodes through
`decode_ivt_current` (0.001 scale, 2-decimal precision) to the text
"1.00" followed by the unit suffix " A", for every value of byte 0. -/
theorem claim_c4_amended (b0 : Nat) :
    decode_ivt_current [b0, 0, 0, 0, 3, 0xE8] = some [("Current", PyValue.str "1.00 A")] := by
  have h : parse_ivt_int40 [b0, 0, 0, 0, 3, 0xE8] = 1000 := by
    rw [parse_ivt_int40_cons]
    with_unfolding_all decide
  simp only [decode_ivt_current, h]
  with_unfolding_all decide

/-- C2: for the multiplexed decoder, selector 0x30 with payload bytes
[58, 02] yields the named signal RPM = 600.0; unknown selector 0xFF with
payload [01, 00] yields the generic label "Mux 0xff" with raw value 1;
and in general each known selector maps to its one named, scaled
little-endian 16-bit signal while every unknown selector yields the
generically labeled raw value rather than a failure. -/
theorem claim_c2 :
    (decode_inverter_multiplexed [0x30, 0x58, 0x02] = some [("RPM", PyValue.num 600)]) ∧
    (decode_inverter_multiplexed [0xFF, 0x01, 0x00] = some [("Mux 0xff", PyValue.num 1)]) ∧
    (∀ d : List Nat, 3 ≤ d.length → d.getD 0 0 = 0x30 →
      decode_inverter_multiplexed d = some [("RPM", .num ((parse_le_int16 d 1 : Rat) * 1))]) ∧
    (∀ d : List Nat, 3 ≤ d.length → d.getD 0 0 = 0xEB →
      decode_inverter_multiplexed d
        = some [("DC Bus", .num ((parse_le_int16 d 1 : Rat) * (1 / 10)))]) ∧
    (∀ d : List Nat, 3 ≤ d.length → d.getD 0 0 = 0x20 →
      decode_inverter_multiplexed d
        = some [("Inv Current", .num ((parse_le_int16 d 1 : Rat) * (1 / 10)))]) ∧
    (∀ d : List Nat, 3 ≤ d.length → d.getD 0 0 = 0x49 →
      decode_inverter_multiplexed d
        = some [("Motor Temp", .num ((parse_le_int16 d 1 : Rat) * 1))]) ∧
    (∀ d : List Nat, 3 ≤ d.length → d.getD 0 0 = 0x4A →
      decode_inverter_multiplexed d
        = some [("IGBT Temp", .num ((parse_le_int16 d 1 : Rat) * 1))]) ∧
    (∀ d : List Nat, 3 ≤ d.length → d.getD 0 0 ≠ 0x30 → d.getD 0 0 ≠ 0xEB →
      d.getD 0 0 ≠ 0x20 → d.getD 0 0 ≠ 0x49 → d.getD 0 0 ≠ 0x4A →
      decode_inverter_multiplexed d
        = some [("Mux " ++ pyHex (d.getD 0 0), .num (parse_le_int16 d 1 : Rat))]) := by
  refine ⟨by with_unfolding_all decide, by with_unfolding_all decide, ?_, ?_, ?_, ?_, ?_, ?_⟩
  · intro d hlen hsel
    simp only [decode_inverter_multiplexed]
    rw [if_neg (show ¬ d.length < 3 by omega), hsel]
    norm_num
  · intro d hlen hsel
    simp only [decode_inverter_multiplexed]
    rw [if_neg (show ¬ d.length < 3 by omega), hsel]
    norm_num
  · intro d hlen hsel
    simp only [decode_inverter_multiplexed]
    rw [if_neg (show ¬ d.length < 3 by omega), hsel]
    norm_num
  · intro d hlen hsel
    simp only [decode_inverter_multiplexed]
    rw [if_neg (show ¬ d.length < 3 by omega), hsel]
    norm_num
  · intro d hlen hsel
    simp only [decode_inverter_multiplexed]
    rw [if_neg (show ¬ d.length < 3 by omega), hsel]
    norm_num
  · intro d hlen h1 h2 h3 h4 h5
    simp only [decode_inverter_multiplexed]
    rw [if_neg (show ¬ d.length < 3 by omega), if_neg h1, if_neg h2, if_neg h3,
      if_neg h4, if_neg h5]

/-- Witness for C2's universally quantified parts, at a known-selector
frame and at an unknown-selector frame. -/
theorem claim_c2_witness :
    (3 ≤ ([0x30, 0x58, 0x02] : List Nat).length ∧
      ([0x30, 0x58, 0x02] : List Nat).getD 0 0 = 0x30 ∧
      decode_inverter_multiplexed [0x30, 0x58, 0x02]
        = some [("RPM", .num ((parse_le_int16 [0x30, 0x58, 0x02] 1 : Rat) * 1))]) ∧
    (([0xFF, 0x01, 0x00] : List Nat).getD 0 0 ≠ 0x30 ∧
      decode_inverter_multiplexed [0xFF, 0x01, 0x00]
        = some [("Mux " ++ pyHex (([0xFF, 0x01, 0x00] : List Nat).getD 0 0),
            .num (parse_le_int16 [0xFF, 0x01, 0x00] 1 : Rat))]) :=
  ⟨⟨by decide, by decide, claim_c2.2.2.1 [0x30, 0x58, 0x02] (by decide) (by decide)⟩,
   ⟨by decide, claim_c2.2.2.2.2.2.2.2 [0xFF, 0x01, 0x00] (by decide) (by decide) (by decide)
      (by decide) (by decide) (by decide)⟩⟩

/-- C1 counterexample: `decode_acu_precharge` does not validate the byte
length before accessing byte 0 — on the empty list it raises an index
error (modelled as `none`) instead of returning a structured value. -/
theorem claim_c1_counterexample : decode_acu_precharge [] = none := rfl

/-- `parse_le_int16` returns 0 on short input. -/
theorem parse_le_int16_short (data : List Nat) (o : Nat) (h : data.length < o + 2) :
    parse_le_int16 data o = 0 := by
  unfold parse_le_int16
  rw [if_pos h]

/-- `parse_be_int16` returns 0 on short input. -/
theorem parse_be_int16_short (data : List Nat) (o : Nat) (h : data.length < o + 2) :
    parse_be_int16 data o = 0 := by
  unfold parse_be_int16
  rw [if_pos h]

/-- `parse_ivt_int40` returns 0 on short input. -/
theorem parse_ivt_int40_short (data : List Nat) (h : data.length < 6) :
    parse_ivt_int40 data = 0 := by
  unfold parse_ivt_int40
  rw [if_pos h]

/-- C1 amended: no decode routine indexes out of range on short input
except the unguarded single-byte status routines.  The int16/int40-based
routines (torque command, IGBT temp, UI voltages, IVT family) return
zero-valued signal mappings on short input because their parse helpers
return 0 rather than a structured short-message; the multiplexed and UI
temperature routines validate length and return structured Error
mappings; `decode_acu_precharge` (and the VCU status routines) access
byte 0 with no length check and raise on empty input, the fault being
caught only at the `DataDecoder.decode` boundary. -/
theorem claim_c1_amended :
    (∀ (data : List Nat) (o : Nat), data.length < o + 2 → parse_le_int16 data o = 0) ∧
    (∀ (data : List Nat) (o : Nat), data.length < o + 2 → parse_be_int16 data o = 0) ∧
    (∀ data : List Nat, data.length < 6 → parse_ivt_int40 data = 0) ∧
    (∀ data : List Nat, data.length < 3 →
      decode_torque_command data = some [("Torque Cmd", PyValue.num 0)]) ∧
    (∀ data : List Nat, data.length < 3 →
      decode_inverter_igbt_temp data = some [("IGBT Temp (L)", PyValue.num 0)]) ∧
    (∀ data : List Nat, data.length < 4 →
      decode_ui_voltages data
        = some [("UI V1", PyValue.num 0), ("UI V2", PyValue.num 0), ("UI V3", PyValue.num 0)]) ∧
    (∀ data : List Nat, data.length < 3 →
      decode_inverter_multiplexed data = some [("Error", PyValue.str "Len<3")]) ∧
    (∀ data : List Nat, data.length < 7 →
      decode_ui_temperatures data = some [("Error", PyValue.str "Short")]) ∧
    (decode_acu_precharge [] = none ∧ decode_vcu_connected [] = none ∧
      decode_vcu_reply [] = none) ∧
    DataDecoder.decode "0x100" [] = DecodeResult.err "Err: list index out of range" := by
  refine ⟨parse_le_int16_short, parse_be_int16_short, parse_ivt_int40_short,
    ?_, ?_, ?_, ?_, ?_, ⟨rfl, rfl, rfl⟩, by with_unfolding_all decide⟩
  · intro data h
    simp [decode_torque_command, parse_le_int16_short data 1 (by omega)]
  · intro data h
    simp [decode_inverter_igbt_temp, parse_le_int16_short data 1 (by omega)]
  · intro data h
    simp [decode_ui_voltages, parse_be_int16_short data 2 (by omega),
      parse_be_int16_short data 4 (by omega), parse_be_int16_short data 6 (by omega)]
  · intro data h
    unfold decode_inverter_multiplexed
    rw [if_pos h]
  · intro data h
    unfold decode_ui_temperatures
    rw [if_pos h]

/-- Witness for C1's amended statement: every short-input conjunct
instantiated at the empty byte list. -/
theorem claim_c1_witness :
    (([] : List Nat).length < 0 + 2 ∧ parse_le_int16 [] 0 = 0 ∧ parse_be_int16 [] 0 = 0) ∧
    (([] : List Nat).length < 6 ∧ parse_ivt_int40 [] = 0) ∧
    (([] : List Nat).length < 3 ∧
      decode_torque_command [] = some [("Torque Cmd", PyValue.num 0)] ∧
      decode_inverter_igbt_temp [] = some [("IGBT Temp (L)", PyValue.num 0)] ∧
      decode_inverter_multiplexed [] = some [("Error", PyValue.str "Len<3")]) ∧
    (([] : List Nat).length < 4 ∧
      decode_ui_voltages []
        = some [("UI V1", PyValue.num 0), ("UI V2", PyValue.num 0), ("UI V3", PyValue.num 0)]) ∧
    (([] : List Nat).length < 7 ∧
      decode_ui_temperatures [] = some [("Error", PyValue.str "Short")]) :=
  ⟨⟨by decide, claim_c1_amended.1 [] 0 (by decide), claim_c1_amended.2.1 [] 0 (by decide)⟩,
   ⟨by decide, claim_c1_amended.2.2.1 [] (by decide)⟩,
   ⟨by decide, claim_c1_amended.2.2.2.1 [] (by decide),
     claim_c1_amended.2.2.2.2.1 [] (by decide),
     claim_c1_amended.2.2.2.2.2.2.1 [] (by decide)⟩,
   ⟨by decide, claim_c1_amended.2.2.2.2.2.1 [] (by decide)⟩,
   ⟨by decide, claim_c1_amended.2.2.2.2.2.2.2.1 [] (by decide)⟩⟩

/-- C5 counterexample: the line "zz 8" has two tokens one of which is not
hex, yet the pipeline does not drop it: `parse_frame` produces a dashboard
row whose value text is the structured error string from the decode
boundary (and the statistics count for the malformed id is incremented). -/
theorem claim_c5_counterexample :
    (CANsnifferUI.parse_frame [] "t" 0 "zz 8").1 =
      some ⟨"0xzz", "Unknown", "8", "", "Err: invalid literal for int() with base 16: 0xzz",
        "-", 1, "t"⟩ := by
  with_unfolding_all decide

/-- C5 amended: a line with fewer than two tokens after normalization is
silently dropped — no row, unchanged statistics, no fault — in particular
the single-token line "garbage".  A line with two or more tokens is never
dropped, hex or not: `parse_frame` always produces a row whose value text
is the rendering of the decode result for the line's id and data tokens,
and a structured error result is rendered verbatim.  So when the id token
or a data token is non-hex the row's value text is the structured
"Err: ..." string ("zz 8"), while a non-hex token in the dlc slot is
never parsed and the line decodes normally ("181 zz 30 58 02"). -/
theorem claim_c5_amended :
    (∀ (stats : List (String × FrameStat)) (ts : String) (now : Rat) (line : String),
      (pyTokens line).length < 2 →
      CANsnifferUI.parse_frame stats ts now line = (none, stats)) ∧
    (∀ (stats : List (String × FrameStat)) (ts : String) (now : Rat) (line : String),
      2 ≤ (pyTokens line).length →
      (CANsnifferUI.parse_frame stats ts now line).1.map Row.valStr =
        some (pyStrOfResult (DataDecoder.decode
          (if startsWith0x ((pyTokens line).getD 0 "") then (pyTokens line).getD 0 ""
           else "0x" ++ (pyTokens line).getD 0 "")
          ((pyTokens line).drop 2)))) ∧
    (∀ e, pyStrOfResult (DecodeResult.err e) = e) ∧
    CANsnifferUI.parse_frame [] "t" 0 "garbage" = (none, []) ∧
    ((CANsnifferUI.parse_frame [] "t" 0 "zz 8").1.map Row.valStr
      = some "Err: invalid literal for int() with base 16: 0xzz") ∧
    (DataDecoder.decode "0x181" ["30", "58", "02"] = .map [("RPM", PyValue.num 600)] ∧
      (CANsnifferUI.parse_frame [] "t" 0 "181 zz 30 58 02").1.map Row.valStr
        = some (pyStrOfResult (DataDecoder.decode "0x181" ["30", "58", "02"]))) := by
  refine ⟨?_, ?_, fun e => rfl, by decide, by with_unfolding_all decide,
    by with_unfolding_all decide, by with_unfolding_all decide⟩
  · intro stats ts now line h
    simp only [CANsnifferUI.parse_frame]
    rw [if_pos h]
  · intro stats ts now line h
    simp only [CANsnifferUI.parse_frame]
    rw [if_neg (show ¬ (pyTokens line).length < 2 by omega)]
    rfl

/-- Witness for C5: the dropped-line conjunct at the line "garbage" and
the always-a-row conjunct at the line "zz 8". -/
theorem claim_c5_witness :
    ((pyTokens "garbage").length < 2 ∧
      CANsnifferUI.parse_frame [] "t" 0 "garbage" = (none, [])) ∧
    (2 ≤ (pyTokens "zz 8").length ∧
      (CANsnifferUI.parse_frame [] "t" 0 "zz 8").1.map Row.valStr =
        some (pyStrOfResult (DataDecoder.decode
          (if startsWith0x ((pyTokens "zz 8").getD 0 "") then (pyTokens "zz 8").getD 0 ""
           else "0x" ++ (pyTokens "zz 8").getD 0 "")
          ((pyTokens "zz 8").drop 2)))) :=
  ⟨⟨by decide, claim_c5_amended.1 [] "t" 0 "garbage" (by decide)⟩,
   ⟨by decide, claim_c5_amended.2.1 [] "t" 0 "zz 8" (by decide)⟩⟩

/-- C6: `DataDecoder.decode` always returns normally with one of the three
result shapes (signal mapping, "No Decoder" sentinel, structured error),
and every fault raised inside its try body is converted by the except arm
into the structured "Err: ..." value attached to that call. -/
theorem claim_c6 (can_id_str : String) (data_bytes_list : List String) :
    ((∃ m, DataDecoder.decode can_id_str data_bytes_list = .map m) ∨
      DataDecoder.decode can_id_str data_bytes_list = .noDecoder ∨
      (∃ e, DataDecoder.decode can_id_str data_bytes_list = .err e)) ∧
    (∀ e, DataDecoder.decodeInner can_id_str data_bytes_list = .error e →
      DataDecoder.decode can_id_str data_bytes_list = .err ("Err: " ++ e)) := by
  constructor
  · cases h : DataDecoder.decode can_id_str data_bytes_list with
    | map m => exact Or.inl ⟨m, rfl⟩
    | noDecoder => exact Or.inr (Or.inl rfl)
    | err s => exact Or.inr (Or.inr ⟨s, rfl⟩)
  · intro e he
    unfold DataDecoder.decode
    rw [he]

/-- Witness for C6 at a call whose data token "GG" makes the try body
fault: the fault is caught and surfaced as the structured error value. -/
theorem claim_c6_witness :
    DataDecoder.decodeInner "0x100" ["GG"] = .error "invalid literal for int() with base 16" ∧
    DataDecoder.decode "0x100" ["GG"]
      = .err ("Err: " ++ "invalid literal for int() with base 16") :=
  ⟨rfl,
   (claim_c6 "0x100" ["GG"]).2 "invalid literal for int() with base 16" rfl⟩

/-- C8: an id string that parses as hexadecimal but is absent from the
decoder registry yields the "No Decoder" sentinel (when the data tokens
parse as hex), and an id also absent from the display-name table receives
the fallback display name "Unknown ID". -/
theorem claim_c8 (idStr : String) (toks : List String) (n : Nat) (ints : List Nat)
    (h1 : pyIntHex idStr = some n) (h2 : lookupD DECODER_MAP n = none)
    (h3 : toks.mapM pyIntHex = some ints) (h4 : lookupD CAN_ID_NAMES n = none) :
    DataDecoder.decode idStr toks = .noDecoder ∧
    DataDecoder.get_name idStr = "Unknown ID" := by
  constructor
  · simp only [DataDecoder.decode, DataDecoder.decodeInner, h1, h3, h2]
  · simp only [DataDecoder.get_name, h1, h4, Option.getD_none]

/-- Witness for C8 at the unregistered id 0x999 with data ["1A"]. -/
theorem claim_c8_witness :
    pyIntHex "0x999" = some 0x999 ∧
    lookupD DECODER_MAP 0x999 = none ∧
    (["1A"] : List String).mapM pyIntHex = some [0x1A] ∧
    lookupD CAN_ID_NAMES 0x999 = none ∧
    DataDecoder.decode "0x999" ["1A"] = .noDecoder ∧
    DataDecoder.get_name "0x999" = "Unknown ID" :=
  ⟨by decide, rfl, by decide, by decide,
   (claim_c8 "0x999" ["1A"] 0x999 [0x1A] (by decide) rfl (by decide) (by decide)).1,
   (claim_c8 "0x999" ["1A"] 0x999 [0x1A] (by decide) rfl (by decide) (by decide)).2⟩

/-- C9: statistics per id — a first sighting stores count 1 and shows the
undefined-frequency sentinel "-"; a subsequent sighting increments the
stored count by exactly 1 and shows the fixed-point label of
1/(now - last) when the delta is strictly positive, the sentinel
otherwise; concretely two sightings of id 0x181 exactly 0.5 s apart show
count 1 with "-" and then count 2 with "2.0 Hz" through `parse_frame`. -/
theorem claim_c9 :
    (∀ (stats : List (String × FrameStat)) (cid : String) (now : Rat),
      lookupS stats cid = none → statsStep stats cid now = (⟨1, now⟩, "-")) ∧
    (∀ (stats : List (String × FrameStat)) (cid : String) (now : Rat) (s : FrameStat),
      lookupS stats cid = some s →
      statsStep stats cid now = (⟨s.c + 1, now⟩,
        if 0 < now - s.t then formatFixed (1 / (now - s.t)) 1 ++ " Hz" else "-")) ∧
    ((CANsnifferUI.parse_frame [] "t0" 0 "0x181 8 30 58 02").1.map
        (fun r => (r.count, r.freq)) = some (1, "-")) ∧
    ((CANsnifferUI.parse_frame [] "t0" 0 "0x181 8 30 58 02").2 = [("0x181", ⟨1, 0⟩)]) ∧
    ((CANsnifferUI.parse_frame [("0x181", ⟨1, 0⟩)] "t1" (1 / 2) "0x181 8 30 58 02").1.map
        (fun r => (r.count, r.freq)) = some (2, "2.0 Hz")) := by
  refine ⟨?_, ?_, by with_unfolding_all decide, by with_unfolding_all decide,
    by with_unfolding_all decide⟩
  · intro stats cid now h
    simp [statsStep, h]
  · intro stats cid now s h
    simp [statsStep, h]

/-- Witness for C9's universally quantified parts: a first sighting on the
empty table and a second sighting half a second later. -/
theorem claim_c9_witness :
    (lookupS [] "0x181" = none ∧ statsStep [] "0x181" 0 = (⟨1, 0⟩, "-")) ∧
    (lookupS [("0x181", ⟨1, 0⟩)] "0x181" = some ⟨1, 0⟩ ∧
      statsStep [("0x181", ⟨1, 0⟩)] "0x181" (1 / 2)
        = (⟨(⟨1, 0⟩ : FrameStat).c + 1, 1 / 2⟩,
           if 0 < (1 / 2 : Rat) - (⟨1, 0⟩ : FrameStat).t
           then formatFixed (1 / ((1 / 2 : Rat) - (⟨1, 0⟩ : FrameStat).t)) 1 ++ " Hz"
           else "-")) :=
  ⟨⟨rfl, claim_c9.1 [] "0x181" 0 rfl⟩,
   ⟨rfl, claim_c9.2.1 [("0x181", ⟨1, 0⟩)] "0x181" (1 / 2) ⟨1, 0⟩ rfl⟩⟩

/-- C10: the display-name table's key set is a strict subset of the
decoder table's key set; each of the ids 0x105, 0x106, 0x175, 0x176,
0x526, 0x527 and 0x528 decodes to a signal mapping (here on the one-byte
payload ["00"]) while its display name falls back to "Unknown ID" — so
the fallback name does not imply the "No Decoder" result. -/
theorem claim_c10 :
    ((CAN_ID_NAMES.map Prod.fst).all
      (fun k => (DECODER_MAP.map Prod.fst).contains k) = true) ∧
    ((DECODER_MAP.map Prod.fst).contains 0x105 = true ∧
      (CAN_ID_NAMES.map Prod.fst).contains 0x105 = false) ∧
    (DataDecoder.decode "0x105" ["00"] = .map [("ACU Info 1", .str "00")] ∧
      DataDecoder.get_name "0x105" = "Unknown ID") ∧
    (DataDecoder.decode "0x106" ["00"] = .map [("ACU Info 2", .str "00")] ∧
      DataDecoder.get_name "0x106" = "Unknown ID") ∧
    (DataDecoder.decode "0x175" ["00"] = .map [("VCU", .bool false)] ∧
      DataDecoder.get_name "0x175" = "Unknown ID") ∧
    (DataDecoder.decode "0x176" ["00"] = .map [("VCU Reply", .bool false)] ∧
      DataDecoder.get_name "0x176" = "Unknown ID") ∧
    (DataDecoder.decode "0x526" ["00"] = .map [("Power", .str "0.0 W")] ∧
      DataDecoder.get_name "0x526" = "Unknown ID") ∧
    (DataDecoder.decode "0x527" ["00"] = .map [("Ah", .num 0)] ∧
      DataDecoder.get_name "0x527" = "Unknown ID") ∧
    (DataDecoder.decode "0x528" ["00"] = .map [("Wh", .num 0)] ∧
      DataDecoder.get_name "0x528" = "Unknown ID") := by
  with_unfolding_all decide
